import Mathlib

/-!
Shallow embedding of the RabbitMQ messaging layer of this repository
(message-serializer, rabbitmq-core, dead-letter-queue, rabbitmq-connection,
priority-queue, rabbitmq-init and delay-queue services), together with
theorems settling the specification claims about it.

Conventions of the embedding:
* JavaScript runtime values that can cross the JSON wire are modelled by
  `JsonValue`; JS truthiness is `truthy`.
* `uuidv4()` and `Date.now()` are modelled as explicit parameters (`freshId`,
  `now`); where a claim needs their runtime guarantees (non-empty id, non-zero
  clock) those appear as hypotheses.
* A wire frame (the `Buffer` produced by `JSON.stringify` and consumed by
  `JSON.parse`) is modelled by `Frame`: either bytes that fail to parse
  (`garbled`, carrying the parse-error text) or the JSON text of an
  envelope-shaped object, represented by the `Message` it denotes (on such
  objects `JSON.parse ∘ JSON.stringify` is the identity).
* Channel operations (`ack`/`nack`/`reject`) performed by a consume wrapper on
  one delivery are collected into a `List ChanAction`; broker sends are
  collected as explicit operation lists.
-/

namespace NestPra

/-- JSON-serializable JavaScript values (the payload domain of the codec). -/
inductive JsonValue where
  | null : JsonValue
  | bool (b : Bool) : JsonValue
  | num (n : Int) : JsonValue
  | str (s : String) : JsonValue
  | arr (elems : List JsonValue) : JsonValue
  | obj (fields : List (String × JsonValue)) : JsonValue

/-- JavaScript truthiness of a JSON value: `null`, `false`, `0` and `""` are
falsy; every array and object is truthy. -/
def truthy : JsonValue → Bool
  | .null => false
  | .bool b => b
  | .num n => n != 0
  | .str s => s != ""
  | .arr _ => true
  | .obj _ => true

/-- The `Message<T>` envelope interface
(src/modules/rabbitmq/interfaces/rabbitmq.interface.ts): id, payload,
timestamp, and the optional retryCount / delay / priority / headers fields.
`none` models an absent (`undefined`) optional field. -/
structure Message where
  id : String
  data : JsonValue
  timestamp : Int
  retryCount : Option Nat := none
  delay : Option Nat := none
  priority : Option Int := none
  headers : Option (List (String × JsonValue)) := none

/-- The options bag accepted by `MessageSerializerService.serialize`. -/
structure SerializeOptions where
  delay : Option Nat := none
  priority : Option Int := none
  headers : Option (List (String × JsonValue)) := none

/-- A wire frame: either bytes on which `JSON.parse` throws (`garbled`, carrying
the parse-error text) or the JSON text of an envelope-shaped object,
represented by the envelope it denotes. -/
inductive Frame where
  | garbled (err : String) : Frame
  | envelope (m : Message) : Frame

/-- Embedding of `MessageSerializerService.serialize`: builds the envelope with a
fresh uuid (`freshId`), the current clock (`now`), `retryCount = 0` and the
supplied optional fields, and emits its JSON frame. -/
def serialize (freshId : String) (now : Int) (data : JsonValue)
    (options : SerializeOptions := {}) : Frame :=
  .envelope
    { id := freshId
      data := data
      timestamp := now
      retryCount := some 0
      delay := options.delay
      priority := options.priority
      headers := options.headers }

/-- Embedding of `MessageSerializerService.deserialize`: a frame that fails
`JSON.parse` throws, and a parsed envelope is rejected as `无效的消息格式`
exactly when `!message.id || !message.data || !message.timestamp` holds in
JavaScript, i.e. when the id is empty, the payload is falsy, or the timestamp
is zero; either error is re-thrown wrapped in `消息反序列化失败: `. -/
def deserialize (frame : Frame) : Except String Message :=
  match frame with
  | .garbled err => .error ("消息反序列化失败: " ++ err)
  | .envelope m =>
    if m.id = "" ∨ ¬ truthy m.data ∨ m.timestamp = 0 then
      .error ("消息反序列化失败: " ++ "无效的消息格式")
    else
      .ok m

/-- Embedding of `MessageSerializerService.createRetryMessage`: increments
`retryCount` (JS `(originalMessage.retryCount || 0) + 1`), throws
`超过最大重试次数` when the new count exceeds `maxRetries`, and otherwise copies
the envelope forward with a fresh id, a fresh timestamp, the new count and the
exponential-backoff delay `2^retryCount * 1000` milliseconds. -/
def createRetryMessage (freshId : String) (now : Int) (originalMessage : Message)
    (maxRetries : Nat := 3) : Except String Message :=
  let retryCount := originalMessage.retryCount.getD 0 + 1
  if retryCount > maxRetries then
    .error "超过最大重试次数"
  else
    .ok { originalMessage with
          id := freshId
          timestamp := now
          retryCount := some retryCount
          delay := some (2 ^ retryCount * 1000) }

/-- A terminal channel action performed on one delivery, mirroring the `amqplib`
channel calls `ack(msg)`, `nack(msg, multiple, requeue)` and
`reject(msg, requeue)`. -/
inductive ChanAction where
  | ack : ChanAction
  | nack (multiple requeue : Bool) : ChanAction
  | reject (requeue : Bool) : ChanAction
deriving DecidableEq, Repr

/-- Embedding of the per-delivery callback installed by
`RabbitMQCoreService.consume`: deserialize the frame, invoke the handler
(`handler m = true` models a handler that returns normally, `false` one that
throws), `ack` on success when `noAck` is off, and on any thrown error —
deserialization failure included — `nack(msg, false, true)` when `noAck` is
off. The returned list collects the channel actions taken on the delivery. -/
def consumeStep (noAck : Bool) (handler : Message → Bool) (frame : Frame) :
    List ChanAction :=
  match deserialize frame with
  | .error _ => if noAck then [] else [.nack false true]
  | .ok m =>
    if handler m then
      if noAck then [] else [.ack]
    else
      if noAck then [] else [.nack false true]

/-- Behaviour of a manual-ack handler on one message: the channel actions it
performs through the `ackCallback` argument, in order, and whether it then
throws (`true`) or returns normally (`false`). -/
def ManualAckHandler : Type := Message → List ChanAction × Bool

/-- Embedding of the per-delivery callback installed by
`RabbitMQCoreService.consumeWithManualAck`: deserialize the frame and invoke the
handler with the ack callbacks; if the handler (or the deserialization) throws,
the catch-all issues `nack(msg, false, true)` in addition to whatever actions
the handler already performed. -/
def consumeWithManualAckStep (handler : ManualAckHandler) (frame : Frame) :
    List ChanAction :=
  match deserialize frame with
  | .error _ => [.nack false true]
  | .ok m =>
    let r := handler m
    if r.2 then r.1 ++ [.nack false true] else r.1

/-- One `sendToQueue` broker operation: the destination queue and the frame
handed to the broker. -/
structure SendOp where
  queue : String
  frame : Frame

/-- Embedding of one execution of the handler wrapper that
`DeadLetterQueueService.consumeWithRetry` passes to `consume`, specialised to an
inner handler that always throws (the hypothesis of the retry claims).
The wrapper catches the error, reads `message.retryCount || 0`, and if below
`maxRetries` builds `createRetryMessage` (fresh uuid `retryId`, clock `tRetry`)
and re-sends only `retryMessage.data` through
`RabbitMQCoreService.sendToQueue`, which re-serializes it into a brand-new
envelope (fresh uuid `sendId`, clock `tSend`, `retryCount = 0`) carrying
`delay: retryMessage.delay` and the `x-retry-count` / `x-original-message-id`
headers; the wrapper then returns normally. Once `retryCount` has reached
`maxRetries` (or building the retry message throws) the wrapper re-throws.
Result: the `sendToQueue` operations performed, and whether the wrapper
threw. -/
def consumeWithRetryWrapperFail (queueName : String) (maxRetries : Nat)
    (retryId sendId : String) (tRetry tSend : Int) (message : Message) :
    List SendOp × Bool :=
  let retryCount := message.retryCount.getD 0
  if retryCount < maxRetries then
    match createRetryMessage retryId tRetry message maxRetries with
    | .ok retryMessage =>
        ([{ queue := queueName
            frame := serialize sendId tSend retryMessage.data
              { delay := retryMessage.delay
                headers := some
                  [("x-retry-count", .num (retryMessage.retryCount.getD 0)),
                   ("x-original-message-id", .str message.id)] } }],
         false)
    | .error _ => ([], true)
  else
    ([], true)

/-- Queue-level bookkeeping of the broker for one terminal action on a
delivered frame `f` of a queue protected by
`DeadLetterQueueService.setupDeadLetterQueue`: `ack` removes the frame,
`nack`/`reject` with `requeue = true` returns it to the queue, and
`nack`/`reject` with `requeue = false` routes it through the queue's
`x-dead-letter-exchange` argument into the paired dead-letter queue. -/
def applyTerminal (f : Frame) (queue dlq : List Frame) :
    ChanAction → List Frame × List Frame
  | .ack => (queue, dlq)
  | .nack _ true => (queue ++ [f], dlq)
  | .nack _ false => (queue, dlq ++ [f])
  | .reject true => (queue ++ [f], dlq)
  | .reject false => (queue, dlq ++ [f])

/-- State of one protected queue consumed via `consumeWithRetry`: the frames
waiting in the original queue, the frames in its paired dead-letter queue, and
the `retryCount` field of every envelope the inner handler has observed so far
(in delivery order). -/
structure RetryState where
  queue : List Frame
  dlq : List Frame
  observed : List (Option Nat)

/-- One broker delivery cycle on a protected queue consumed through
`consumeWithRetry` with an always-failing handler: deliver the head frame to
the `consume` callback; on deserialization failure the callback nacks with
`requeue = true`; otherwise the wrapper runs
(`consumeWithRetryWrapperFail`), its `sendToQueue` operations targeting this
queue are enqueued, and `consume` acks when the wrapper returned normally or
nacks with `requeue = true` when it re-threw. -/
def retryLoopStep (queueName : String) (maxRetries : Nat)
    (retryId sendId : String) (tRetry tSend : Int) (s : RetryState) :
    RetryState :=
  match s.queue with
  | [] => s
  | f :: rest =>
    match deserialize f with
    | .error _ =>
      let qd := applyTerminal f rest s.dlq (.nack false true)
      { queue := qd.1, dlq := qd.2, observed := s.observed }
    | .ok message =>
      let r := consumeWithRetryWrapperFail queueName maxRetries retryId sendId
        tRetry tSend message
      let afterSend :=
        rest ++ (r.1.filter (fun op => op.queue == queueName)).map SendOp.frame
      let act : ChanAction := if r.2 then .nack false true else .ack
      let qd := applyTerminal f afterSend s.dlq act
      { queue := qd.1, dlq := qd.2,
        observed := s.observed ++ [message.retryCount] }

/-- Iterate `retryLoopStep` `n` times; the uuid and clock supplies are indexed
by the step number. -/
def runRetryLoop (queueName : String) (maxRetries : Nat)
    (retryIds sendIds : Nat → String) (tRetry tSend : Nat → Int) :
    Nat → RetryState → RetryState
  | 0, s => s
  | n + 1, s =>
    retryLoopStep queueName maxRetries (retryIds n) (sendIds n) (tRetry n)
      (tSend n)
      (runRetryLoop queueName maxRetries retryIds sendIds tRetry tSend n s)

/-- The `maxReconnectAttempts` constant of `RabbitMQConnectionService`. -/
def maxReconnectAttempts : Nat := 10

/-- The `reconnectDelay` constant of `RabbitMQConnectionService`, in
milliseconds. -/
def reconnectDelay : Nat := 5000

/-- Mutable state of `RabbitMQConnectionService` relevant to reconnection:
the `isConnected` flag and the `reconnectAttempts` counter. -/
structure ConnState where
  isConnected : Bool
  reconnectAttempts : Nat
deriving DecidableEq, Repr

/-- Embedding of `RabbitMQConnectionService.handleReconnect`: when the attempt
counter has reached `maxReconnectAttempts` it returns without scheduling
anything; otherwise it increments the counter and schedules a `connect` after
`reconnectDelay * reconnectAttempts` milliseconds. The second component is the
scheduled delay, `none` when nothing was scheduled. -/
def handleReconnect (s : ConnState) : ConnState × Option Nat :=
  if s.reconnectAttempts ≥ maxReconnectAttempts then
    (s, none)
  else
    let attempts := s.reconnectAttempts + 1
    ({ s with reconnectAttempts := attempts },
     some (reconnectDelay * attempts))

/-- External events driving the connection manager: a `connect` call that
succeeds, a `connect` call whose awaited connection/channel setup throws, and
an unexpected `close` event on the active connection. -/
inductive ConnEvent where
  | connectOk : ConnEvent
  | connectFail : ConnEvent
  | closed : ConnEvent
deriving DecidableEq, Repr

/-- Embedding of one event-handling step of `RabbitMQConnectionService`:
a successful `connect` sets `isConnected := true` and resets
`reconnectAttempts := 0`; a failed `connect` runs `handleReconnect` from its
catch block; the `close` listener clears `isConnected` and runs
`handleReconnect`. The second component is the reconnect delay scheduled by
the step, if any. -/
def connStep (s : ConnState) : ConnEvent → ConnState × Option Nat
  | .connectOk => ({ isConnected := true, reconnectAttempts := 0 }, none)
  | .connectFail => handleReconnect s
  | .closed => handleReconnect { s with isConnected := false }

/-- Run the connection manager over a sequence of events, collecting every
reconnect delay that gets scheduled along the way. -/
def runConn : ConnState → List ConnEvent → ConnState × List Nat
  | s, [] => (s, [])
  | s, e :: es =>
    let r := connStep s e
    let rest := runConn r.1 es
    (rest.1, (match r.2 with | some d => [d] | none => []) ++ rest.2)

/-- The options bag accepted by publish/send operations of
`RabbitMQCoreService` (`PublishOptions` of the interface file). -/
structure PublishOptions where
  persistent : Option Bool := none
  priority : Option Int := none
  expiration : Option String := none
  delay : Option Nat := none
  headers : Option (List (String × JsonValue)) := none

/-- Embedding of `PriorityQueueService.sendPriorityMessage`: prefix the queue
name with `priority.queue`, throw `优先级必须在 0-255 之间` when the priority is
out of range — before any broker operation — and otherwise delegate to
`RabbitMQCoreService.sendToQueue`, which serializes the payload (fresh uuid
`freshId`, clock `now`) with the delay/priority/headers of the merged options
and hands the frame to the broker. The first component lists the broker
operations performed; the second is the call's result. -/
def sendPriorityMessage (freshId : String) (now : Int) (queueName : String)
    (data : JsonValue) (priority : Int) (options : PublishOptions := {}) :
    List SendOp × Except String Bool :=
  let fullQueueName := "priority.queue" ++ "." ++ queueName
  if priority < 0 ∨ priority > 255 then
    ([], .error "优先级必须在 0-255 之间")
  else
    ([{ queue := fullQueueName
        frame := serialize freshId now data
          { delay := options.delay
            priority := some priority
            headers := options.headers } }],
     .ok true)

/-- Embedding of `DelayQueueService.cancelDelayMessage`
(rabbitmq-examples.service.ts): it performs no broker operation, logs a
warning, and returns `false`. -/
def cancelDelayMessage (queueName messageId : String) : List SendOp × Bool :=
  ([], false)

/-- Options passed to `RabbitMQCoreService.assertExchange` (after the service
applies its `?? true` / `?? false` defaults). -/
structure ExchangeOptions where
  type : String
  durable : Bool := true
  autoDelete : Bool := false
  arguments : Option (List (String × JsonValue)) := none

/-- Options passed to `RabbitMQCoreService.assertQueue` (after the service
applies its defaults). -/
structure QueueDeclOptions where
  durable : Bool := true
  exclusive : Bool := false
  autoDelete : Bool := false
  arguments : Option (List (String × JsonValue)) := none

/-- A broker topology declaration performed through `RabbitMQCoreService`. -/
inductive TopologyOp where
  | assertExchange (exchange : String) (options : ExchangeOptions) : TopologyOp
  | assertQueue (queue : String) (options : QueueDeclOptions) : TopologyOp
  | bindQueue (queue exchange routingKey : String) : TopologyOp

/-- The optional `queueOptions` block of a `QueueConfig` entry
(queue.config.ts). -/
structure QueueConfigQueueOptions where
  durable : Option Bool := none
  exclusive : Option Bool := none
  autoDelete : Option Bool := none
  arguments : Option (List (String × JsonValue)) := none

/-- The optional `exchangeOptions` block of a `QueueConfig` entry. -/
structure QueueConfigExchangeOptions where
  durable : Option Bool := none
  autoDelete : Option Bool := none
  arguments : Option (List (String × JsonValue)) := none

/-- One entry of the static `QUEUE_CONFIGS` table (queue.config.ts). -/
structure QueueConfig where
  queue : String
  exchange : String
  exchangeType : String
  routingKey : Option String := none
  queueOptions : Option QueueConfigQueueOptions := none
  exchangeOptions : Option QueueConfigExchangeOptions := none

/-- Insert one config into the exchange-keyed groups, preserving JavaScript
object insertion order (the `reduce` in `RabbitMQInitService.groupByExchange`).
-/
def insertGrouped (groups : List (String × List QueueConfig))
    (config : QueueConfig) : List (String × List QueueConfig) :=
  if groups.any (fun g => g.1 == config.exchange) then
    groups.map (fun g =>
      if g.1 == config.exchange then (g.1, g.2 ++ [config]) else g)
  else
    groups ++ [(config.exchange, [config])]

/-- Embedding of `RabbitMQInitService.groupByExchange`. -/
def groupByExchange (configs : List QueueConfig) :
    List (String × List QueueConfig) :=
  configs.foldl insertGrouped []

/-- Embedding of `RabbitMQInitService.setupExchangeAndQueues`: declare the
exchange once using the first config's exchange type and options, then declare
every queue of the group and bind it with its routing key (empty string when
absent). Returns the broker declarations performed, in order. -/
def setupExchangeAndQueues (exchangeName : String)
    (configs : List QueueConfig) : List TopologyOp :=
  match configs with
  | [] => []
  | c0 :: _ =>
    TopologyOp.assertExchange exchangeName
      { type := c0.exchangeType
        durable := (c0.exchangeOptions.bind (·.durable)).getD true
        autoDelete := (c0.exchangeOptions.bind (·.autoDelete)).getD false
        arguments := c0.exchangeOptions.bind (·.arguments) }
      :: configs.flatMap (fun config =>
        [TopologyOp.assertQueue config.queue
           { durable := (config.queueOptions.bind (·.durable)).getD true
             exclusive := (config.queueOptions.bind (·.exclusive)).getD false
             autoDelete := (config.queueOptions.bind (·.autoDelete)).getD false
             arguments := config.queueOptions.bind (·.arguments) },
         TopologyOp.bindQueue config.queue exchangeName
           (config.routingKey.getD "")])

/-- The broker declarations performed by one uninhibited pass of
`RabbitMQInitService.initializeQueues` over a config table. -/
def declaredOps (configs : List QueueConfig) : List TopologyOp :=
  (groupByExchange configs).flatMap (fun g => setupExchangeAndQueues g.1 g.2)

/-- The `initialized` flag of `RabbitMQInitService`. -/
structure InitState where
  initialized : Bool
deriving DecidableEq, Repr

/-- Embedding of `RabbitMQInitService.initializeQueues`: when `initialized` is
already set the call logs and returns without touching the broker; otherwise it
declares every exchange group and sets `initialized`. Returns the new state and
the broker declarations performed by this call. -/
def initializeQueues (configs : List QueueConfig) (s : InitState) :
    InitState × List TopologyOp :=
  if s.initialized then
    (s, [])
  else
    ({ initialized := true }, declaredOps configs)

/-- The static `QUEUE_CONFIGS` table of queue.config.ts. -/
def QUEUE_CONFIGS : List QueueConfig :=
  [{ queue := "email-tasks", exchange := "work-exchange",
     exchangeType := "direct", routingKey := some "email" },
   { queue := "sms-tasks", exchange := "work-exchange",
     exchangeType := "direct", routingKey := some "sms" },
   { queue := "image-processing", exchange := "work-exchange",
     exchangeType := "direct", routingKey := some "image" },
   { queue := "events.user", exchange := "events-exchange",
     exchangeType := "topic", routingKey := some "user.*" },
   { queue := "events.order", exchange := "events-exchange",
     exchangeType := "topic", routingKey := some "order.*" },
   { queue := "events.payment", exchange := "events-exchange",
     exchangeType := "topic", routingKey := some "payment.*" },
   { queue := "events.all", exchange := "events-exchange",
     exchangeType := "topic", routingKey := some "#" },
   { queue := "logs.error", exchange := "logs-exchange",
     exchangeType := "topic", routingKey := some "*.error" },
   { queue := "logs.warning", exchange := "logs-exchange",
     exchangeType := "topic", routingKey := some "*.warning" },
   { queue := "logs.all", exchange := "logs-exchange",
     exchangeType := "topic", routingKey := some "#" },
   { queue := "notifications.web", exchange := "notifications-exchange",
     exchangeType := "fanout" },
   { queue := "notifications.mobile", exchange := "notifications-exchange",
     exchangeType := "fanout" },
   { queue := "notifications.email", exchange := "notifications-exchange",
     exchangeType := "fanout" },
   { queue := "urgent-tasks", exchange := "priority-exchange",
     exchangeType := "direct", routingKey := some "urgent",
     queueOptions := some
       { arguments := some [("x-max-priority", .num 10)] } }]

/-- A concrete envelope used to evaluate `createRetryMessage` at one input. -/
def msgC4 : Message :=
  { id := "orig-id"
    data := .str "payload"
    timestamp := 100
    retryCount := some 0 }

/-- A manual-ack handler that acknowledges the delivery through the ack
callback and then throws. -/
def ackThenThrowHandler : ManualAckHandler := fun _ => ([.ack], true)

/-- Invariant of the `consumeWithRetry` loop with an always-failing handler:
the original queue holds exactly one well-formed envelope whose `retryCount`
field is `0` and whose payload is `P`, the dead-letter queue is empty, and
every attempt so far observed `retryCount = 0`. -/
def retryInvariant (P : JsonValue) (n : Nat) (s : RetryState) : Prop :=
  (∃ f m, s.queue = [f] ∧ deserialize f = .ok m ∧
    m.retryCount = some 0 ∧ m.data = P) ∧
  s.dlq = [] ∧ s.observed = List.replicate n (some 0)

/-- C2 (counterexample): the claim quantifies over all JSON-serializable
payloads, explicitly including falsy ones; but for the falsy payload `0` the
decode of an encoded frame fails — `deserialize` validates with JavaScript
truthiness (`!message.data`), so `data: 0` is rejected as a malformed envelope
even though the id is a fresh uuid and the timestamp is a non-zero clock
value. -/
theorem deserialize_serialize_zero_fails :
    deserialize (serialize "id-2a" 1700000000000 (.num 0)) =
      .error ("消息反序列化失败: " ++ "无效的消息格式") := by
  rfl

/-- C2 (amended): for every truthy JSON-serializable payload `P` and any encode
options, decoding an encoded frame succeeds and returns exactly the envelope
that was built: `data = P`, the id is the (non-empty) uuid, the timestamp is
the (non-zero) clock value and `retryCount = 0`. Falsy payloads
(`0`, `""`, `false`, `null`) are instead rejected by the decoder's truthiness
validation (see the counterexample). -/
theorem deserialize_serialize_roundtrip (P : JsonValue)
    (options : SerializeOptions) (freshId : String) (now : Int)
    (hP : truthy P = true) (hid : freshId ≠ "") (hnow : now ≠ 0) :
    deserialize (serialize freshId now P options) =
      .ok { id := freshId
            data := P
            timestamp := now
            retryCount := some 0
            delay := options.delay
            priority := options.priority
            headers := options.headers } := by
  simp [serialize, deserialize, hP, hid, hnow]

/-- C2 (witness): the round trip evaluated at a concrete truthy payload. -/
theorem deserialize_serialize_roundtrip_witness :
    deserialize (serialize "id-2b" 5 (.str "hello")) =
      .ok { id := "id-2b"
            data := .str "hello"
            timestamp := 5
            retryCount := some 0
            delay := none
            priority := none
            headers := none } :=
  deserialize_serialize_roundtrip (.str "hello") {} "id-2b" 5 (by decide)
    (by decide) (by decide)

/-- C4 (counterexample): `createRetryMessage` does not add a header linking to
the original id. At a concrete envelope with no headers, the returned retry
envelope still has `headers = none` — the `x-original-message-id` link header
the claim requires is absent (it is attached only later, by
`consumeWithRetry`, as a broker-publish header of the re-send). All other
claimed fields (incremented retryCount, fresh id, backoff delay, copied
payload) are visible in the result. -/
theorem createRetryMessage_no_link_header :
    createRetryMessage "fresh-id" 200 msgC4 3 =
      .ok { id := "fresh-id"
            data := .str "payload"
            timestamp := 200
            retryCount := some 1
            delay := some 2000
            priority := none
            headers := none } := by
  rfl

/-- C4 (amended): `createRetryMessage(M, maxRetries)` fails with the
retry-limit-exceeded error exactly when the incremented count exceeds
`maxRetries`; otherwise it returns `M` with a fresh id (differing from `M.id`),
a refreshed timestamp, `retryCount` incremented by one, and delay
`2^newRetryCount` seconds — payload and headers copied forward unchanged, with
no added provenance header. -/
theorem createRetryMessage_spec (freshId : String) (now : Int) (m : Message)
    (maxRetries : Nat) (hid : freshId ≠ m.id) :
    (m.retryCount.getD 0 + 1 > maxRetries →
      createRetryMessage freshId now m maxRetries = .error "超过最大重试次数") ∧
    (m.retryCount.getD 0 + 1 ≤ maxRetries →
      createRetryMessage freshId now m maxRetries =
        .ok { m with
              id := freshId
              timestamp := now
              retryCount := some (m.retryCount.getD 0 + 1)
              delay := some (2 ^ (m.retryCount.getD 0 + 1) * 1000) } ∧
      freshId ≠ m.id) := by
  constructor
  · intro h
    simp only [createRetryMessage]
    rw [if_pos h]
  · intro h
    refine ⟨?_, hid⟩
    simp only [createRetryMessage]
    rw [if_neg (by omega)]

/-- C4 (witness): the amended contract evaluated at a concrete envelope. -/
theorem createRetryMessage_spec_witness :
    createRetryMessage "fresh-id2" 200 msgC4 3 =
      .ok { msgC4 with
            id := "fresh-id2"
            timestamp := 200
            retryCount := some (msgC4.retryCount.getD 0 + 1)
            delay := some (2 ^ (msgC4.retryCount.getD 0 + 1) * 1000) } ∧
    "fresh-id2" ≠ msgC4.id :=
  (createRetryMessage_spec "fresh-id2" 200 msgC4 3 (by decide)).2 (by decide)

/-- C9: `cancelDelayMessage` performs no broker operation and always returns
`false` to its caller, for every queue name and message id. -/
theorem cancelDelayMessage_always_fails (queueName messageId : String) :
    cancelDelayMessage queueName messageId = ([], false) :=
  rfl

/-- C7: `sendPriorityMessage` accepts every priority in `[0, 255]` and performs
exactly the delegated `sendToQueue`; for a priority outside the range it throws
the invalid-priority error having performed no broker operation at all. -/
theorem sendPriorityMessage_range (freshId : String) (now : Int)
    (queueName : String) (data : JsonValue) (priority : Int)
    (options : PublishOptions) :
    (0 ≤ priority ∧ priority ≤ 255 →
      sendPriorityMessage freshId now queueName data priority options =
        ([{ queue := "priority.queue" ++ "." ++ queueName
            frame := serialize freshId now data
              { delay := options.delay
                priority := some priority
                headers := options.headers } }], .ok true)) ∧
    (priority < 0 ∨ priority > 255 →
      sendPriorityMessage freshId now queueName data priority options =
        ([], .error "优先级必须在 0-255 之间")) := by
  constructor
  · rintro ⟨h0, h255⟩
    simp only [sendPriorityMessage]
    rw [if_neg (by omega)]
  · intro h
    simp only [sendPriorityMessage]
    rw [if_pos h]

/-- C7 (witness): a valid and an invalid priority evaluated concretely. -/
theorem sendPriorityMessage_range_witness :
    sendPriorityMessage "id-7a" 9 "q" (.str "x") 5 =
      ([{ queue := "priority.queue" ++ "." ++ "q"
          frame := serialize "id-7a" 9 (.str "x")
            { delay := none, priority := some 5, headers := none } }],
       .ok true) ∧
    sendPriorityMessage "id-7b" 9 "q" (.str "x") 300 =
      ([], .error "优先级必须在 0-255 之间") :=
  ⟨(sendPriorityMessage_range "id-7a" 9 "q" (.str "x") 5 {}).1
     ⟨by decide, by decide⟩,
   (sendPriorityMessage_range "id-7b" 9 "q" (.str "x") 300 {}).2
     (Or.inr (by decide))⟩

/-- C5: in the auto-ack-wrapper mode of `consume` (`noAck = false`, the
default), every delivery whose frame decodes is handed to the handler and then
acknowledged exactly when the handler returns successfully; on handler failure
it is negative-acknowledged with `requeue = true`; and no delivery receives
both an ack and a nack on this path. -/
theorem consume_autoAck_ack_iff_success (handler : Message → Bool)
    (frame : Frame) (m : Message) (h : deserialize frame = .ok m) :
    (handler m = true → consumeStep false handler frame = [.ack]) ∧
    (handler m = false →
      consumeStep false handler frame = [.nack false true]) ∧
    ¬ (ChanAction.ack ∈ consumeStep false handler frame ∧
       ChanAction.nack false true ∈ consumeStep false handler frame) := by
  simp only [consumeStep, h]
  cases hh : handler m <;> simp [hh]

/-- C5 (witness): a successful handler on a concrete well-formed delivery is
acknowledged (and only acknowledged). -/
theorem consume_autoAck_witness :
    consumeStep false (fun _ => true) (serialize "id-5" 3 (.str "p")) =
      [.ack] :=
  (consume_autoAck_ack_iff_success (fun _ => true)
    (serialize "id-5" 3 (.str "p"))
    { id := "id-5"
      data := .str "p"
      timestamp := 3
      retryCount := some 0 } rfl).1 rfl

/-- C3 (counterexample): the claim says a frame whose decode fails is never
negative-acknowledged with `requeue = true`; but for a frame that fails
`JSON.parse` the `consume` callback's catch block runs
`channel.nack(msg, false, true)` — the malformed frame IS requeued onto the
same queue, not acknowledged-and-dropped or dead-lettered. -/
theorem consume_malformed_requeued :
    consumeStep false (fun _ => true) (.garbled "Unexpected token") =
      [.nack false true] ∧
    ChanAction.nack false true ∈
      consumeStep false (fun _ => true) (.garbled "Unexpected token") := by
  constructor
  · rfl
  · simp [consumeStep, deserialize]

/-- C3 (amended): a delivery whose decode fails is not retried by the handler
(which is never invoked) but it is also not dropped or dead-lettered: the
consume loop negative-acknowledges it with `requeue = true` — the same catch
path as a handler failure — so the corrupt frame returns to the same queue. -/
theorem consume_malformed_nack_requeue (handler : Message → Bool)
    (frame : Frame) (e : String) (h : deserialize frame = .error e) :
    consumeStep false handler frame = [.nack false true] ∧
    consumeStep false handler frame ≠ [.ack] := by
  simp [consumeStep, h]

/-- C3 (witness): the amended behaviour on a concrete garbled frame. -/
theorem consume_malformed_nack_requeue_witness :
    consumeStep false (fun _ => false) (.garbled "bad") =
      [.nack false true] :=
  (consume_malformed_nack_requeue (fun _ => false) (.garbled "bad")
    ("消息反序列化失败: " ++ "bad") rfl).1

/-- C10: `consumeWithManualAck` does not enforce the at-most-one-terminal-
action discipline: a handler that acknowledges through the ack callback and
then throws makes the catch-all issue an additional
`nack(msg, false, true)` on the very same delivery — two terminal actions, an
ack followed by a requeueing nack. -/
theorem consumeWithManualAck_double_terminal (frame : Frame) (m : Message)
    (h : deserialize frame = .ok m) :
    consumeWithManualAckStep ackThenThrowHandler frame =
      [.ack, .nack false true] := by
  simp [consumeWithManualAckStep, h, ackThenThrowHandler]

/-- C10 (witness): the double terminal action on a concrete delivery. -/
theorem consumeWithManualAck_double_terminal_witness :
    consumeWithManualAckStep ackThenThrowHandler
      (serialize "id-10" 7 (.str "p")) = [.ack, .nack false true] :=
  consumeWithManualAck_double_terminal (serialize "id-10" 7 (.str "p"))
    { id := "id-10"
      data := .str "p"
      timestamp := 7
      retryCount := some 0 } rfl

/-- Helper: once the attempt counter has reached the ceiling, any run made of
failed connects and unexpected closes schedules nothing and never changes the
counter. -/
theorem runConn_exhausted (es : List ConnEvent) :
    ∀ s : ConnState, maxReconnectAttempts ≤ s.reconnectAttempts →
      (∀ e ∈ es, e = ConnEvent.connectFail ∨ e = ConnEvent.closed) →
      (runConn s es).2 = [] ∧
      maxReconnectAttempts ≤ (runConn s es).1.reconnectAttempts := by
  induction es with
  | nil => intro s hs _; exact ⟨rfl, hs⟩
  | cons e es ih =>
    intro s hs hes
    have he := hes e (by simp)
    have hstep : (connStep s e).2 = none ∧
        (connStep s e).1.reconnectAttempts = s.reconnectAttempts := by
      rcases he with he | he <;> subst he <;>
        simp [connStep, handleReconnect, hs]
    have hrest := ih (connStep s e).1 (hstep.2 ▸ hs)
      (fun e' he' => hes e' (by simp [he']))
    simp only [runConn]
    rw [hstep.1]
    exact ⟨by simpa using hrest.1, hrest.2⟩

/-- C6: on a failed connect or an unexpected close below the attempt ceiling,
the connection manager increments the attempt counter and schedules the next
reconnect after `reconnectDelay * attemptNumber` (linear backoff); once the
counter has reached `maxReconnectAttempts` (10), no run of further
failures/closes ever schedules a reconnect; and every successful connect
resets the counter to zero. -/
theorem reconnect_policy :
    (∀ (s : ConnState) (e : ConnEvent),
      (e = ConnEvent.connectFail ∨ e = ConnEvent.closed) →
      s.reconnectAttempts < maxReconnectAttempts →
      (connStep s e).2 = some (reconnectDelay * (s.reconnectAttempts + 1)) ∧
      (connStep s e).1.reconnectAttempts = s.reconnectAttempts + 1) ∧
    (∀ (s : ConnState) (es : List ConnEvent),
      maxReconnectAttempts ≤ s.reconnectAttempts →
      (∀ e ∈ es, e = ConnEvent.connectFail ∨ e = ConnEvent.closed) →
      (runConn s es).2 = []) ∧
    (∀ s : ConnState,
      connStep s .connectOk =
        ({ isConnected := true, reconnectAttempts := 0 }, none)) := by
  refine ⟨?_, ?_, fun s => rfl⟩
  · intro s e he hs
    rcases he with he | he <;> subst he <;>
      simp [connStep, handleReconnect, Nat.not_le.mpr hs]
  · intro s es hs hes
    exact (runConn_exhausted es s hs hes).1

/-- C6 (witness): the reconnect policy evaluated at concrete states — a fourth
attempt scheduled after `5000 * 4` ms, an exhausted counter scheduling nothing
over further failures, and a successful connect resetting the counter. -/
theorem reconnect_policy_witness :
    (connStep { isConnected := false, reconnectAttempts := 3 }
       ConnEvent.closed).2 = some (reconnectDelay * (3 + 1)) ∧
    (runConn { isConnected := false, reconnectAttempts := 10 }
       [ConnEvent.closed, ConnEvent.connectFail, ConnEvent.closed]).2 = [] ∧
    connStep { isConnected := false, reconnectAttempts := 7 }
      ConnEvent.connectOk =
      ({ isConnected := true, reconnectAttempts := 0 }, none) :=
  ⟨(reconnect_policy.1 { isConnected := false, reconnectAttempts := 3 }
      ConnEvent.closed (Or.inr rfl) (by decide)).1,
   reconnect_policy.2.1 { isConnected := false, reconnectAttempts := 10 }
     [ConnEvent.closed, ConnEvent.connectFail, ConnEvent.closed]
     (by decide) (by decide),
   reconnect_policy.2.2 { isConnected := false, reconnectAttempts := 7 }⟩

/-- C8: with a fresh registrar state, running `initializeQueues` twice over the
same static table declares the topology exactly once: the second call performs
no broker declarations at all (the `initialized` guard short-circuits), the
combined declarations of both calls equal those of the first call alone, and
the registrar state is unchanged by the second call. -/
theorem initializeQueues_idempotent (configs : List QueueConfig)
    (s0 : InitState) (h : s0.initialized = false) :
    (initializeQueues configs (initializeQueues configs s0).1).2 = [] ∧
    (initializeQueues configs s0).2 ++
        (initializeQueues configs (initializeQueues configs s0).1).2 =
      (initializeQueues configs s0).2 ∧
    (initializeQueues configs (initializeQueues configs s0).1).1 =
      (initializeQueues configs s0).1 := by
  simp [initializeQueues, h]

/-- C8 (witness): the double initialization evaluated on the repository's
static `QUEUE_CONFIGS` table. -/
theorem initializeQueues_idempotent_witness :
    (initializeQueues QUEUE_CONFIGS
        (initializeQueues QUEUE_CONFIGS { initialized := false }).1).2 = [] ∧
    (initializeQueues QUEUE_CONFIGS { initialized := false }).2 ++
        (initializeQueues QUEUE_CONFIGS
          (initializeQueues QUEUE_CONFIGS { initialized := false }).1).2 =
      (initializeQueues QUEUE_CONFIGS { initialized := false }).2 ∧
    (initializeQueues QUEUE_CONFIGS
        (initializeQueues QUEUE_CONFIGS { initialized := false }).1).1 =
      (initializeQueues QUEUE_CONFIGS { initialized := false }).1 :=
  initializeQueues_idempotent QUEUE_CONFIGS { initialized := false } rfl

/-- Helper: decoding a frame freshly produced by `serialize` succeeds whenever
the uuid is non-empty, the payload is truthy and the clock is non-zero. -/
theorem deserialize_serialize_ok (freshId : String) (now : Int) (P : JsonValue)
    (options : SerializeOptions) (hP : truthy P = true) (hid : freshId ≠ "")
    (hnow : now ≠ 0) :
    deserialize (serialize freshId now P options) =
      .ok { id := freshId
            data := P
            timestamp := now
            retryCount := some 0
            delay := options.delay
            priority := options.priority
            headers := options.headers } := by
  simp [serialize, deserialize, hP, hid, hnow]

/-- Helper: on an envelope with `retryCount = 0` and `maxRetries ≥ 1`, the
always-failing `consumeWithRetry` wrapper takes the retry branch: it re-sends
one brand-new envelope (with `retryCount = 0` again, since `sendToQueue`
re-serializes only the payload) and returns normally. -/
theorem wrapperFail_at_zero (queueName retryId sendId : String) (tR tS : Int)
    (maxRetries : Nat) (hmr : 1 ≤ maxRetries) (m : Message)
    (hrc : m.retryCount = some 0) :
    consumeWithRetryWrapperFail queueName maxRetries retryId sendId tR tS m =
      ([{ queue := queueName
          frame := serialize sendId tS m.data
            { delay := some 2000
              headers := some [("x-retry-count", .num 1),
                               ("x-original-message-id", .str m.id)] } }],
       false) := by
  simp only [consumeWithRetryWrapperFail, hrc, Option.getD_some]
  rw [if_pos (by omega : (0 : Nat) < maxRetries)]
  simp only [createRetryMessage, hrc, Option.getD_some]
  rw [if_neg (by omega : ¬ (0 + 1 > maxRetries))]
  norm_num

/-- Helper: one delivery cycle of the retry loop on a state whose single queued
envelope has `retryCount = 0`: the handler observes `retryCount = 0`, the
original frame is acked away, a fresh envelope (again with `retryCount = 0`)
replaces it, and the dead-letter queue is untouched. -/
theorem retryLoopStep_eval (queueName : String) (maxRetries : Nat)
    (retryId sendId : String) (tR tS : Int) (s : RetryState) (f : Frame)
    (m : Message) (hq : s.queue = [f]) (hd : deserialize f = .ok m)
    (hrc : m.retryCount = some 0) (hmr : 1 ≤ maxRetries) :
    retryLoopStep queueName maxRetries retryId sendId tR tS s =
      { queue := [serialize sendId tS m.data
          { delay := some 2000
            headers := some [("x-retry-count", .num 1),
                             ("x-original-message-id", .str m.id)] }]
        dlq := s.dlq
        observed := s.observed ++ [some 0] } := by
  simp only [retryLoopStep, hq, hd,
    wrapperFail_at_zero queueName retryId sendId tR tS maxRetries hmr m hrc,
    hrc]
  simp [applyTerminal]

/-- Helper: the retry-loop invariant is preserved by every delivery cycle. -/
theorem retryInvariant_step (queueName : String) (maxRetries : Nat)
    (hmr : 1 ≤ maxRetries) (P : JsonValue) (hP : truthy P = true)
    (retryId sendId : String) (tR tS : Int) (hsend : sendId ≠ "")
    (hts : tS ≠ 0) (n : Nat) (s : RetryState) (h : retryInvariant P n s) :
    retryInvariant P (n + 1)
      (retryLoopStep queueName maxRetries retryId sendId tR tS s) := by
  obtain ⟨⟨f, m, hq, hd, hrc, hdata⟩, hdlq, hobs⟩ := h
  rw [retryLoopStep_eval queueName maxRetries retryId sendId tR tS s f m hq hd
    hrc hmr]
  refine ⟨⟨_, _, rfl, deserialize_serialize_ok sendId tS m.data _
    (hdata ▸ hP) hsend hts, rfl, hdata⟩, hdlq, ?_⟩
  rw [hobs, hdlq, ← List.replicate_succ']

/-- Helper: for every number of delivery cycles, the retry loop started on one
well-formed envelope keeps satisfying the invariant — in particular the
dead-letter queue stays empty forever and the handler only ever observes
`retryCount = 0`. -/
theorem retryInvariant_run (queueName : String) (maxRetries : Nat)
    (hmr : 1 ≤ maxRetries) (P : JsonValue) (hP : truthy P = true)
    (retryIds sendIds : Nat → String) (tRetry tSend : Nat → Int)
    (hsend : ∀ k, sendIds k ≠ "") (hts : ∀ k, tSend k ≠ 0)
    (s0 : RetryState) (h0 : retryInvariant P 0 s0) (n : Nat) :
    retryInvariant P n
      (runRetryLoop queueName maxRetries retryIds sendIds tRetry tSend n s0) := by
  induction n with
  | zero => exact h0
  | succ n ih =>
    exact retryInvariant_step queueName maxRetries hmr P hP (retryIds n)
      (sendIds n) (tRetry n) (tSend n) (hsend n) (hts n) n _ ih

/-- C1: concrete run refuting the claimed retry/dead-letter behaviour. A
protected queue `task.queue` with `maxRetries = 3` is fed one message whose
handler always throws. After 5 delivery cycles the handler has observed
`retryCount = 0` on every attempt (never 1, 2, 3: each re-send goes through
`sendToQueue`, whose `serialize` resets `retryCount` to 0), the dead-letter
queue is still empty (the message should have been there after 3 attempts),
and one copy of the message is still cycling in the original queue. -/
theorem consumeWithRetry_wipes_retryCount :
    (runRetryLoop "task.queue" 3 (fun _ => "retry-uuid") (fun _ => "send-uuid")
        (fun _ => 2) (fun _ => 2) 5
        { queue := [serialize "orig-uuid" 1 (.str "task")]
          dlq := []
          observed := [] }).dlq = [] ∧
    (runRetryLoop "task.queue" 3 (fun _ => "retry-uuid") (fun _ => "send-uuid")
        (fun _ => 2) (fun _ => 2) 5
        { queue := [serialize "orig-uuid" 1 (.str "task")]
          dlq := []
          observed := [] }).observed = List.replicate 5 (some 0) ∧
    (runRetryLoop "task.queue" 3 (fun _ => "retry-uuid") (fun _ => "send-uuid")
        (fun _ => 2) (fun _ => 2) 5
        { queue := [serialize "orig-uuid" 1 (.str "task")]
          dlq := []
          observed := [] }).queue.length = 1 := by
  refine ⟨?_, ?_, ?_⟩ <;> rfl

end NestPra
